import Mathlib

/-!
Verification of the override reconciliation engine of `requiam`
(`src/requiam/manual_override.py`), shallowly embedded in Lean 4.

The embedding follows the source file function by function:

* a pandas `DataFrame` holding the override table (columns `netid`, `uaid`,
  and either `portal` or `quota`) is a list of rows in frame order; where
  the pandas index matters (`update_dataframe` writes through `.loc`
  labels) each row is paired with its `Nat` label, and where only column
  values matter (`identify_changes`) the rows are bare;
* a column value of the group column is a `GroupVal`: a string in the
  portal table and an integer in the quota table (pandas compares values
  of different runtime types as unequal, which the derived equality on
  `GroupVal` also does);
* a Python `set` of `uaid` strings is a `Finset String`, and a pandas
  Series handed to set arithmetic is kept apart from a set
  (`UaidColl`), because `set - Series` raises `TypeError` while
  `set.union` accepts any iterable;
* Python functions that can `raise` return `Except String α`, the error
  string naming the exception raised.
-/

/-- Value of the group column of an override table: a portal name (string
column of `portal_manual.csv`) or a quota (integer column of
`quota_manual.csv`). -/
inductive GroupVal where
  | str : String → GroupVal
  | int : Int → GroupVal
deriving DecidableEq, Repr

/-- One data row of an override table DataFrame: columns `netid`, `uaid`
and the group column (`portal` or `quota`). -/
structure Row where
  netid : String
  uaid : String
  group : GroupVal
deriving DecidableEq, Repr

/-- The collection of uaid values handed to `update_entries`: either a
Python `set` or a pandas Series (a DataFrame column, which is what
`identify_changes` passes).  The distinction matters because Python set
arithmetic treats the two differently. -/
inductive UaidColl where
  | pyset : Finset String → UaidColl
  | series : List String → UaidColl
deriving DecidableEq

/-- Embedding of `update_entries` (manual_override.py lines 174-207).
Adds or removes entries from a set of uaid values; the `netid` argument
is only logged and does not affect the result.  The add branch
`set.union(ldap_set, uaid)` accepts any iterable, so it unions in the
values of a Series as well as of a set.  The remove branch computes
`ldap_set - uaid`: set difference when `uaid` is a set, but when `uaid`
is a pandas Series, `set` subtraction rejects the non-set operand and
pandas then attempts elementwise arithmetic with the set, which raises
`TypeError` — the remove branch never returns a set for a Series.  An
unrecognized action raises `ValueError`. -/
def update_entries (ldap_set : Finset String) (netid : List String)
    (uaid : UaidColl) (action : String) : Except String (Finset String) :=
  if ¬ (action = "remove" ∨ action = "add") then
    Except.error "ValueError: Incorrect [action] input"
  else if action = "remove" then
    match uaid with
    | UaidColl.pyset s => Except.ok (ldap_set \ s)
    | UaidColl.series _ =>
        Except.error "TypeError: unsupported operand types for -: set and Series"
  else
    match uaid with
    | UaidColl.pyset s => Except.ok (ldap_set ∪ s)
    | UaidColl.series l => Except.ok (ldap_set ∪ l.toFinset)

/-- Embedding of `ManualOverride.identify_changes` (manual_override.py
lines 54-84).  The source first validates `group_type` and then selects
`self.portal_df` or `self.quota_df` as `manual_df`; here the selected
DataFrame is passed directly as `manual_df`, with `group_type` kept for
the validation.  Phase one adds the uaids of all rows whose group column
equals `group` (a Series handed to `set.union`, which succeeds); phase
two, run afterwards when some row's group column differs from `group`,
hands the Series `outside_df['uaid']` to `ldap_set - uaid` and therefore
raises `TypeError` — the call returns a set only when every row's group
column equals `group`.  Either phase is skipped when its row selection is
empty. -/
def identify_changes (manual_df : List Row) (ldap_set : Finset String)
    (group : GroupVal) (group_type : String) : Except String (Finset String) :=
  if ¬ (group_type = "portal" ∨ group_type = "quota") then
    Except.error "ValueError: Incorrect [group_type] input"
  else
    let add_df := manual_df.filter (fun r => r.group == group)
    let add_ldap_set : Except String (Finset String) :=
      if 0 < add_df.length then
        update_entries ldap_set (add_df.map Row.netid)
          (UaidColl.series (add_df.map Row.uaid)) "add"
      else
        Except.ok ldap_set
    match add_ldap_set with
    | Except.error e => Except.error e
    | Except.ok s1 =>
        let outside_df := manual_df.filter (fun r => !(r.group == group))
        if 0 < outside_df.length then
          update_entries s1 (outside_df.map Row.netid)
            (UaidColl.series (outside_df.map Row.uaid)) "remove"
        else
          Except.ok s1

theorem identify_changes_err (manual_df : List Row) (ldap_set : Finset String)
    (group : GroupVal) (group_type : String)
    (h : ¬ (group_type = "portal" ∨ group_type = "quota")) :
    identify_changes manual_df ldap_set group group_type
      = Except.error "ValueError: Incorrect [group_type] input" := by
  unfold identify_changes
  simp [h]

theorem identify_changes_typeerror (manual_df : List Row) (ldap_set : Finset String)
    (group : GroupVal) (group_type : String)
    (hv : group_type = "portal" ∨ group_type = "quota")
    (hout : 0 < (manual_df.filter (fun r => !(r.group == group))).length) :
    identify_changes manual_df ldap_set group group_type
      = Except.error "TypeError: unsupported operand types for -: set and Series" := by
  unfold identify_changes update_entries
  rw [if_neg (not_not_intro hv)]
  by_cases h1 : 0 < (manual_df.filter (fun r => r.group == group)).length <;>
    simp [h1, hout]

theorem identify_changes_ok_eq (manual_df : List Row) (ldap_set : Finset String)
    (group : GroupVal) (group_type : String)
    (hv : group_type = "portal" ∨ group_type = "quota")
    (hout : manual_df.filter (fun r => !(r.group == group)) = []) :
    identify_changes manual_df ldap_set group group_type
      = Except.ok (ldap_set
          ∪ ((manual_df.filter (fun r => r.group == group)).map Row.uaid).toFinset) := by
  unfold identify_changes update_entries
  rw [if_neg (not_not_intro hv)]
  by_cases h1 : 0 < (manual_df.filter (fun r => r.group == group)).length
  · simp [h1, hout]
  · have h1' : manual_df.filter (fun r => r.group == group) = [] := by
      simpa [Nat.pos_iff_ne_zero, List.length_eq_zero] using h1
    simp [h1, hout, h1']

theorem identify_changes_ok_inv (manual_df : List Row) (ldap_set : Finset String)
    (group : GroupVal) (group_type : String) (R : Finset String)
    (h : identify_changes manual_df ldap_set group group_type = Except.ok R) :
    (group_type = "portal" ∨ group_type = "quota")
      ∧ manual_df.filter (fun r => !(r.group == group)) = []
      ∧ R = ldap_set
          ∪ ((manual_df.filter (fun r => r.group == group)).map Row.uaid).toFinset := by
  by_cases hv : group_type = "portal" ∨ group_type = "quota"
  · by_cases hout : 0 < (manual_df.filter (fun r => !(r.group == group))).length
    · rw [identify_changes_typeerror manual_df ldap_set group group_type hv hout] at h
      exact absurd h (by simp)
    · have hout' : manual_df.filter (fun r => !(r.group == group)) = [] := by
        simpa [Nat.pos_iff_ne_zero, List.length_eq_zero] using hout
      rw [identify_changes_ok_eq manual_df ldap_set group group_type hv hout'] at h
      exact ⟨hv, hout', (Except.ok.injEq _ _ ▸ h).symm⟩
  · rw [identify_changes_err manual_df ldap_set group group_type hv] at h
    exact absurd h (by simp)

theorem identify_changes_ok_mem (manual_df : List Row) (ldap_set : Finset String)
    (group : GroupVal) (group_type : String) (R : Finset String)
    (h : identify_changes manual_df ldap_set group group_type = Except.ok R)
    (u : String) :
    u ∈ R ↔ (u ∈ ldap_set ∨ ∃ r ∈ manual_df, r.uaid = u ∧ r.group = group) := by
  rcases identify_changes_ok_inv manual_df ldap_set group group_type R h with ⟨-, -, hR⟩
  subst hR
  simp only [Finset.mem_union, List.mem_toFinset, List.mem_map, List.mem_filter,
    beq_iff_eq]
  constructor
  · rintro (h1 | ⟨r, ⟨hr, hg⟩, hu⟩)
    · exact Or.inl h1
    · exact Or.inr ⟨r, hr, hu, hg⟩
  · rintro (h1 | ⟨r, hr, hu, hg⟩)
    · exact Or.inl h1
    · exact Or.inr ⟨r, ⟨hr, hg⟩, hu⟩

/-- C1 (counterexample): with table rows `(n1, U1, g)` and `(n2, U1, h)`,
target group `g` and empty live set, `identify_changes` does not return a
set containing `U1` — it returns no set at all: the second record's group
differs from the target, so the exclusion phase hands the pandas Series
`outside_df['uaid']` to `ldap_set - uaid`, which raises `TypeError`. -/
theorem C1_counterexample :
    identify_changes
        [⟨"n1", "U1", GroupVal.str "g"⟩, ⟨"n2", "U1", GroupVal.str "h"⟩] ∅
        (GroupVal.str "g") "portal"
      = Except.error "TypeError: unsupported operand types for -: set and Series"
    ∧ (identify_changes
        [⟨"n1", "U1", GroupVal.str "g"⟩, ⟨"n2", "U1", GroupVal.str "h"⟩] ∅
        (GroupVal.str "g") "portal").toOption = none := by
  exact ⟨rfl, rfl⟩

/-- C1 (amended): whenever `identify_changes` returns a set at all — which
requires every override record's group to equal the target group, since
any other record makes the exclusion phase raise `TypeError` on set minus
pandas Series — the returned set contains every `uaid` having an override
record whose group equals the target group, regardless of whether that
`uaid` was in the input live set. -/
theorem C1_theorem (manual_df : List Row) (ldap_set : Finset String)
    (group : GroupVal) (group_type : String) (u : String) (R : Finset String)
    (hok : identify_changes manual_df ldap_set group group_type = Except.ok R)
    (hin : ∃ r ∈ manual_df, r.uaid = u ∧ r.group = group) :
    u ∈ R := by
  rw [identify_changes_ok_mem manual_df ldap_set group group_type R hok u]
  exact Or.inr hin

/-- Witness for C1: with the one-row table `[(u1, U1, engineering)]`,
empty live set and target group `engineering`, the call succeeds and `U1`
is in the result. -/
theorem C1_witness :
    identify_changes [⟨"u1", "U1", GroupVal.str "engineering"⟩] ∅
        (GroupVal.str "engineering") "portal" = Except.ok {"U1"}
      ∧ ("U1" : String) ∈ ({"U1"} : Finset String) := by
  refine ⟨rfl, ?_⟩
  exact C1_theorem [⟨"u1", "U1", GroupVal.str "engineering"⟩] ∅
    (GroupVal.str "engineering") "portal" "U1" {"U1"} rfl (by decide)

/-- C2 (counterexample): the spec's own exclusion example — live set
`{U2}`, override row `(u2, U2, marketing)`, target group `engineering` —
does not return a set without `U2`: the exclusion phase raises
`TypeError` on `ldap_set - uaid` with the pandas Series, so no set is
returned at all. -/
theorem C2_counterexample :
    identify_changes [⟨"u2", "U2", GroupVal.str "marketing"⟩] {"U2"}
        (GroupVal.str "engineering") "portal"
      = Except.error "TypeError: unsupported operand types for -: set and Series"
    ∧ (identify_changes [⟨"u2", "U2", GroupVal.str "marketing"⟩] {"U2"}
        (GroupVal.str "engineering") "portal").toOption = none := by
  exact ⟨rfl, rfl⟩

/-- C2 (amended): for every live membership set and every `uaid` having an
override record whose group differs from the target group,
`identify_changes` (with a recognized group type) returns no set at all —
a fortiori no set containing that `uaid`: the exclusion phase, which runs
after the inclusion phase, raises `TypeError` when it computes set minus
pandas Series on the non-matching records' uaid column. -/
theorem C2_theorem (manual_df : List Row) (ldap_set : Finset String)
    (group : GroupVal) (group_type : String) (u : String)
    (hv : group_type = "portal" ∨ group_type = "quota")
    (hout : ∃ r ∈ manual_df, r.uaid = u ∧ r.group ≠ group) :
    identify_changes manual_df ldap_set group group_type
        = Except.error "TypeError: unsupported operand types for -: set and Series"
      ∧ ∀ R : Finset String,
          identify_changes manual_df ldap_set group group_type ≠ Except.ok R := by
  have hlen : 0 < (manual_df.filter (fun r => !(r.group == group))).length := by
    rcases hout with ⟨r, hr, -, hg⟩
    have hmem : r ∈ manual_df.filter (fun r => !(r.group == group)) :=
      List.mem_filter.mpr ⟨hr, by simp [hg]⟩
    exact List.length_pos.mpr (List.ne_nil_of_mem hmem)
  refine ⟨identify_changes_typeerror manual_df ldap_set group group_type hv hlen, ?_⟩
  intro R hR
  rw [identify_changes_typeerror manual_df ldap_set group group_type hv hlen] at hR
  exact absurd hR (by simp)

/-- Witness for C2: the spec's example raises `TypeError` and in
particular does not return the live set with `U2` removed. -/
theorem C2_witness :
    identify_changes [⟨"u2", "U2", GroupVal.str "marketing"⟩] {"U2"}
        (GroupVal.str "engineering") "portal"
      = Except.error "TypeError: unsupported operand types for -: set and Series"
    ∧ identify_changes [⟨"u2", "U2", GroupVal.str "marketing"⟩] {"U2"}
        (GroupVal.str "engineering") "portal" ≠ Except.ok ∅ := by
  have h := C2_theorem [⟨"u2", "U2", GroupVal.str "marketing"⟩] {"U2"}
    (GroupVal.str "engineering") "portal" "U2" (Or.inl rfl) (by decide)
  exact ⟨h.1, h.2 ∅⟩

/-- C6: reconciliation is idempotent and pure.  When `identify_changes`
returns a set `R`, running it again on `R` with the same table, target
group and group type returns `R` unchanged; and composing the two calls
in the exception monad equals a single call on every input — when the
first call raises, as the exclusion phase does whenever some record's
group differs from the target, the composite raises identically. -/
theorem C6_theorem :
    (∀ (manual_df : List Row) (ldap_set : Finset String) (group : GroupVal)
        (group_type : String) (R : Finset String),
      identify_changes manual_df ldap_set group group_type = Except.ok R →
      identify_changes manual_df R group group_type = Except.ok R)
    ∧ (∀ (manual_df : List Row) (ldap_set : Finset String) (group : GroupVal)
        (group_type : String),
      (identify_changes manual_df ldap_set group group_type).bind
          (fun R => identify_changes manual_df R group group_type)
        = identify_changes manual_df ldap_set group group_type) := by
  have main : ∀ (manual_df : List Row) (ldap_set : Finset String) (group : GroupVal)
      (group_type : String) (R : Finset String),
      identify_changes manual_df ldap_set group group_type = Except.ok R →
      identify_changes manual_df R group group_type = Except.ok R := by
    intro manual_df ldap_set group group_type R hok
    rcases identify_changes_ok_inv manual_df ldap_set group group_type R hok
      with ⟨hv, hout, hR⟩
    rw [identify_changes_ok_eq manual_df R group group_type hv hout, hR]
    congr 1
    rw [Finset.union_assoc, Finset.union_self]
  refine ⟨main, ?_⟩
  intro manual_df ldap_set group group_type
  cases h : identify_changes manual_df ldap_set group group_type with
  | error e => rfl
  | ok R => exact main manual_df ldap_set group group_type R h

/-- Witness for C6: a concrete second application returning the first
result unchanged. -/
theorem C6_witness :
    identify_changes [⟨"u1", "U1", GroupVal.str "eng"⟩] ∅
        (GroupVal.str "eng") "portal" = Except.ok {"U1"}
      ∧ identify_changes [⟨"u1", "U1", GroupVal.str "eng"⟩] {"U1"}
        (GroupVal.str "eng") "portal" = Except.ok {"U1"} := by
  refine ⟨rfl, ?_⟩
  exact C6_theorem.1 [⟨"u1", "U1", GroupVal.str "eng"⟩] ∅
    (GroupVal.str "eng") "portal" {"U1"} rfl

/-- C10 (counterexample): with the one-row table `(n1, U1, h)`, target
group `g` and live set `{X}` — where `X` appears in no override record —
`identify_changes` does not include `X` in any result: the row's group
differs from the target, so the exclusion phase raises `TypeError` and no
set is returned at all. -/
theorem C10_counterexample :
    identify_changes [⟨"n1", "U1", GroupVal.str "h"⟩] {"X"}
        (GroupVal.str "g") "portal"
      = Except.error "TypeError: unsupported operand types for -: set and Series"
    ∧ (identify_changes [⟨"n1", "U1", GroupVal.str "h"⟩] {"X"}
        (GroupVal.str "g") "portal").toOption = none := by
  exact ⟨rfl, rfl⟩

/-- C10 (amended): whenever `identify_changes` returns a set — which
requires every override record's group to equal the target group; any
other table makes the exclusion phase raise `TypeError` — a `uaid`
appearing in no override record is in the result exactly when it was in
the input live set; in particular, with an empty override table the
result is the input live set itself. -/
theorem C10_theorem :
    (∀ (manual_df : List Row) (ldap_set : Finset String) (group : GroupVal)
        (group_type : String) (u : String) (R : Finset String),
      identify_changes manual_df ldap_set group group_type = Except.ok R →
      (∀ r ∈ manual_df, r.uaid ≠ u) →
      (u ∈ R ↔ u ∈ ldap_set))
    ∧ (∀ (ldap_set : Finset String) (group : GroupVal) (group_type : String),
        (group_type = "portal" ∨ group_type = "quota") →
        identify_changes [] ldap_set group group_type = Except.ok ldap_set) := by
  constructor
  · intro manual_df ldap_set group group_type u R hok hno
    rw [identify_changes_ok_mem manual_df ldap_set group group_type R hok u]
    constructor
    · rintro (h | ⟨r, hr, hu, -⟩)
      · exact h
      · exact absurd hu (hno r hr)
    · exact Or.inl
  · intro ldap_set group group_type hv
    rw [identify_changes_ok_eq [] ldap_set group group_type hv rfl]
    simp

/-- Witness for C10: with an all-matching table, a user `X` outside the
override table stays in the live set; and an empty table returns the live
set unchanged. -/
theorem C10_witness :
    identify_changes [⟨"u1", "U1", GroupVal.str "eng"⟩] {"X"}
        (GroupVal.str "eng") "portal" = Except.ok {"X", "U1"}
      ∧ (("X" : String) ∈ ({"X", "U1"} : Finset String)
          ↔ ("X" : String) ∈ ({"X"} : Finset String))
      ∧ identify_changes [] {"X"} (GroupVal.str "eng") "portal" = Except.ok {"X"} := by
  refine ⟨rfl, ?_, ?_⟩
  · exact C10_theorem.1 [⟨"u1", "U1", GroupVal.str "eng"⟩] {"X"}
      (GroupVal.str "eng") "portal" "X" {"X", "U1"} rfl (by decide)
  · exact C10_theorem.2 {"X"} (GroupVal.str "eng") "portal" (Or.inl rfl)

/-!
Model of `ManualOverride.update_dataframe`.  Pandas keeps an index label
with every row: `read_csv` assigns `0..n-1`, `drop` keeps the surviving
labels unchanged, and `.loc[lbl] = row` appends only when `lbl` is absent
and otherwise overwrites the row carrying `lbl` in place.  An override
DataFrame is therefore a list of labelled rows in frame order.
-/

/-- The index labels of a labelled frame, in frame order. -/
def labels (df : List (Nat × Row)) : List Nat :=
  df.map Prod.fst

/-- The netid column of a labelled frame, in frame order. -/
def netids (df : List (Nat × Row)) : List String :=
  df.map (fun p => p.2.netid)

/-- Pandas label assignment `revised_df.loc[lbl] = [...]`: when a row
carrying `lbl` exists it is overwritten in place; otherwise (setting with
enlargement) the new row is appended with label `lbl`. -/
def loc_set (df : List (Nat × Row)) (lbl : Nat) (row : Row) : List (Nat × Row) :=
  if df.any (fun p => p.1 == lbl) then
    df.map (fun p => if p.1 == lbl then (lbl, row) else p)
  else
    df ++ [(lbl, row)]

/-- The labels `loc0 = revised_df.loc[revised_df['netid'] == netid].index`:
the labels of the rows whose netid column equals `netid`, in frame
order. -/
def loc0_labels (df : List (Nat × Row)) (netid : String) : List Nat :=
  (df.filter (fun p => p.2.netid == netid)).map Prod.fst

/-- Embedding of the DataFrame mutation of `ManualOverride.update_dataframe`
(manual_override.py lines 86-107); the persistence step (lines 109-124)
is modelled separately by `save_lines`, and the revised frame is
returned.  When no row's netid matches, the source assigns
`revised_df.loc[len(revised_df)] = [netid, list(uaid)[0], group]` — an
append only when label `len(df)` is absent, an overwrite of the row
carrying that label otherwise (labels survive earlier drops, so the
collision is reachable); when a row matches and `group` is not the
`"root"` sentinel, the row labelled `loc0[0]` is overwritten; otherwise
all rows labelled in `loc0` are dropped.  `list(uaid)[0]` raises
`IndexError` on an empty collection. -/
def update_dataframe (df : List (Nat × Row)) (netid : String) (uaid : List String)
    (group : GroupVal) (group_type : String) : Except String (List (Nat × Row)) :=
  if ¬ (group_type = "portal" ∨ group_type = "quota") then
    Except.error "ValueError: Incorrect [group_type] input"
  else if (loc0_labels df netid).length = 0 then
    match uaid with
    | [] => Except.error "IndexError: list index out of range"
    | u0 :: _ => Except.ok (loc_set df df.length ⟨netid, u0, group⟩)
  else if group ≠ GroupVal.str "root" then
    match uaid with
    | [] => Except.error "IndexError: list index out of range"
    | u0 :: _ =>
        Except.ok (loc_set df ((loc0_labels df netid).getD 0 0) ⟨netid, u0, group⟩)
  else
    Except.ok (df.filter (fun p => !((loc0_labels df netid).contains p.1)))

/-- One call in a sequence of `update_dataframe` invocations. -/
structure UpsertCall where
  netid : String
  uaid : List String
  group : GroupVal
  group_type : String
deriving Repr

/-- A finite sequence of `update_dataframe` calls, each applied to the
frame produced by the previous one; a raised exception aborts the
sequence. -/
def apply_upserts (df : List (Nat × Row)) : List UpsertCall → Except String (List (Nat × Row))
  | [] => Except.ok df
  | c :: cs =>
      match update_dataframe df c.netid c.uaid c.group c.group_type with
      | Except.error e => Except.error e
      | Except.ok df' => apply_upserts df' cs

theorem labels_loc_set (df : List (Nat × Row)) (lbl : Nat) (row : Row)
    (h : (labels df).Nodup) : (labels (loc_set df lbl row)).Nodup := by
  unfold loc_set
  by_cases hany : (df.any (fun p => p.1 == lbl)) = true
  · rw [if_pos hany]
    have key : labels (df.map (fun p => if p.1 == lbl then (lbl, row) else p))
        = labels df := by
      unfold labels
      rw [List.map_map]
      apply List.map_congr_left
      intro p hp
      by_cases hpl : (p.1 == lbl) = true
      · simp [Function.comp, hpl, beq_iff_eq.mp hpl]
      · simp [Function.comp, hpl]
    rw [key]
    exact h
  · rw [if_neg hany]
    unfold labels
    rw [List.map_append]
    have hfresh : lbl ∉ df.map Prod.fst := by
      intro hm
      rcases List.mem_map.mp hm with ⟨p, hp, hpl⟩
      exact hany (List.any_eq_true.mpr ⟨p, hp, by simp [hpl]⟩)
    exact List.Nodup.append h (List.nodup_singleton lbl)
      (by simpa [List.disjoint_singleton] using hfresh)

theorem map_pick_nodup (df : List (Nat × Row)) (lbl : Nat) (x : String)
    (hl : (labels df).Nodup) (hn : (netids df).Nodup) (hf : x ∉ netids df) :
    (df.map (fun p => if p.1 == lbl then x else p.2.netid)).Nodup := by
  induction df with
  | nil => simp
  | cons p ps ih =>
      simp only [labels, List.map_cons, List.nodup_cons] at hl
      simp only [netids, List.map_cons, List.nodup_cons] at hn
      simp only [netids, List.map_cons, List.mem_cons] at hf
      push_neg at hf
      simp only [List.map_cons, List.nodup_cons]
      constructor
      · by_cases hpl : (p.1 == lbl) = true
        · rw [if_pos hpl]
          intro hmem
          rcases List.mem_map.mp hmem with ⟨q, hq, hqe⟩
          by_cases hql : (q.1 == lbl) = true
          · refine hl.1 (List.mem_map.mpr ⟨q, hq, ?_⟩)
            rw [beq_iff_eq.mp hql]
            exact (beq_iff_eq.mp hpl).symm
          · rw [if_neg hql] at hqe
            exact hf.2 (List.mem_map.mpr ⟨q, hq, hqe⟩)
        · rw [if_neg hpl]
          intro hmem
          rcases List.mem_map.mp hmem with ⟨q, hq, hqe⟩
          by_cases hql : (q.1 == lbl) = true
          · rw [if_pos hql] at hqe
            exact hf.1 hqe
          · rw [if_neg hql] at hqe
            exact hn.1 (List.mem_map.mpr ⟨q, hq, hqe⟩)
      · exact ih hl.2 hn.2 hf.2

theorem netids_overwrite_nodup (df : List (Nat × Row)) (lbl : Nat) (row : Row)
    (hl : (labels df).Nodup) (hn : (netids df).Nodup) (hf : row.netid ∉ netids df) :
    (netids (df.map (fun p => if p.1 == lbl then (lbl, row) else p))).Nodup := by
  have key : netids (df.map (fun p => if p.1 == lbl then (lbl, row) else p))
      = df.map (fun p => if p.1 == lbl then row.netid else p.2.netid) := by
    unfold netids
    rw [List.map_map]
    apply List.map_congr_left
    intro p hp
    by_cases hpl : (p.1 == lbl) = true
    · simp [Function.comp, hpl]
    · simp [Function.comp, hpl]
  rw [key]
  exact map_pick_nodup df lbl row.netid hl hn hf

theorem netids_overwrite_eq (df : List (Nat × Row)) (lbl : Nat) (row : Row)
    (hall : ∀ p ∈ df, p.1 = lbl → p.2.netid = row.netid) :
    netids (df.map (fun p => if p.1 == lbl then (lbl, row) else p)) = netids df := by
  unfold netids
  rw [List.map_map]
  apply List.map_congr_left
  intro p hp
  by_cases hpl : (p.1 == lbl) = true
  · simp [Function.comp, hpl, hall p hp (beq_iff_eq.mp hpl)]
  · simp [Function.comp, hpl]

theorem mem_loc_set_self (df : List (Nat × Row)) (lbl : Nat) (row : Row) :
    (lbl, row) ∈ loc_set df lbl row := by
  unfold loc_set
  by_cases hany : (df.any (fun p => p.1 == lbl)) = true
  · rw [if_pos hany]
    rcases List.any_eq_true.mp hany with ⟨p, hp, hpl⟩
    exact List.mem_map.mpr ⟨p, hp, by simp [hpl]⟩
  · rw [if_neg hany]
    exact List.mem_append.mpr (Or.inr (List.mem_singleton.mpr rfl))

theorem update_dataframe_nodup (df : List (Nat × Row)) (netid : String)
    (uaid : List String) (group : GroupVal) (group_type : String)
    (df' : List (Nat × Row))
    (hl : (labels df).Nodup) (hn : (netids df).Nodup)
    (h : update_dataframe df netid uaid group group_type = Except.ok df') :
    (labels df').Nodup ∧ (netids df').Nodup := by
  unfold update_dataframe at h
  by_cases hv : group_type = "portal" ∨ group_type = "quota"
  · rw [if_neg (not_not_intro hv)] at h
    by_cases hempty : (loc0_labels df netid).length = 0
    · rw [if_pos hempty] at h
      match uaid with
      | [] => exact absurd h (by simp)
      | u0 :: _ =>
          simp only at h
          cases h
          have hfilter : df.filter (fun p => p.2.netid == netid) = [] := by
            apply List.length_eq_zero.mp
            unfold loc0_labels at hempty
            rwa [List.length_map] at hempty
          have hfresh : netid ∉ netids df := by
            intro hm
            rcases List.mem_map.mp hm with ⟨p, hp, hpn⟩
            have := List.filter_eq_nil_iff.mp hfilter p hp
            simp [hpn] at this
          refine ⟨labels_loc_set df df.length _ hl, ?_⟩
          unfold loc_set
          by_cases hany : (df.any (fun p => p.1 == df.length)) = true
          · rw [if_pos hany]
            exact netids_overwrite_nodup df df.length ⟨netid, u0, group⟩ hl hn hfresh
          · rw [if_neg hany]
            unfold netids
            rw [List.map_append]
            simp only [List.map_cons, List.map_nil]
            refine List.Nodup.append hn (List.nodup_singleton _) ?_
            rw [List.disjoint_singleton]
            exact hfresh
    · rw [if_neg hempty] at h
      by_cases hroot : group ≠ GroupVal.str "root"
      · rw [if_pos hroot] at h
        match uaid with
        | [] => exact absurd h (by simp)
        | u0 :: _ =>
            simp only at h
            cases h
            cases hq : df.filter (fun p => p.2.netid == netid) with
            | nil =>
                exfalso
                apply hempty
                unfold loc0_labels
                rw [hq]
                rfl
            | cons q qs =>
                have hqmem : q ∈ df.filter (fun p => p.2.netid == netid) :=
                  hq ▸ List.mem_cons_self q qs
                have hqdf : q ∈ df := (List.mem_filter.mp hqmem).1
                have hqn : q.2.netid = netid := by
                  have := (List.mem_filter.mp hqmem).2
                  simpa using this
                have hlbl0 : (loc0_labels df netid).getD 0 0 = q.1 := by
                  unfold loc0_labels
                  rw [hq]
                  rfl
                rw [hlbl0]
                have hany : (df.any (fun p => p.1 == q.1)) = true :=
                  List.any_eq_true.mpr ⟨q, hqdf, by simp⟩
                have hall : ∀ p ∈ df, p.1 = q.1 →
                    p.2.netid = (⟨netid, u0, group⟩ : Row).netid := by
                  intro p hp hpl
                  have hpq : p = q := List.inj_on_of_nodup_map hl hp hqdf hpl
                  rw [hpq]
                  exact hqn
                refine ⟨labels_loc_set df q.1 _ hl, ?_⟩
                unfold loc_set
                rw [if_pos hany]
                rw [netids_overwrite_eq df q.1 ⟨netid, u0, group⟩ hall]
                exact hn
      · rw [if_neg hroot] at h
        cases h
        constructor
        · refine List.Nodup.sublist ?_ hl
          unfold labels
          exact List.Sublist.map Prod.fst (List.filter_sublist df)
        · refine List.Nodup.sublist ?_ hn
          unfold netids
          exact List.Sublist.map (fun p => p.2.netid) (List.filter_sublist df)
  · rw [if_pos hv] at h
    exact absurd h (by simp)

/-- C3 (counterexample): called with group `"root"` for a `netid` that has
no record, `update_dataframe` is not a no-op: the `len(loc0) == 0` branch
writes `[netid, uaid[0], "root"]` through `.loc` without checking for the
sentinel, so on the empty table a root record is created. -/
theorem C3_counterexample :
    update_dataframe [] "u1" ["U1"] (GroupVal.str "root") "portal"
        = Except.ok [(0, (⟨"u1", "U1", GroupVal.str "root"⟩ : Row))]
      ∧ ([(0, (⟨"u1", "U1", GroupVal.str "root"⟩ : Row))] : List (Nat × Row)) ≠ [] := by
  exact ⟨rfl, by decide⟩

/-- C3 (amended): called with group `"root"` on a table that contains a
record for the given `netid`, `update_dataframe` removes every record for
that `netid` (dropping the matching labels), and no record for it
remains; called with group `"root"` on a table with no record for that
`netid`, it is not a no-op: it writes the record `(netid, uaid[0],
"root")` at row label `len(table)` — appended when that label is absent,
and replacing the row carrying that label when present, which is
reachable after earlier deletions — so a root record ends up in the
table. -/
theorem C3_theorem :
    (∀ (df : List (Nat × Row)) (netid : String) (uaid : List String)
        (group_type : String),
      (group_type = "portal" ∨ group_type = "quota") →
      (∃ p ∈ df, p.2.netid = netid) →
      update_dataframe df netid uaid (GroupVal.str "root") group_type
          = Except.ok (df.filter (fun p => !((loc0_labels df netid).contains p.1)))
        ∧ ∀ p ∈ df.filter (fun p => !((loc0_labels df netid).contains p.1)),
            p.2.netid ≠ netid)
    ∧ (∀ (df : List (Nat × Row)) (netid u0 : String) (us : List String)
        (group_type : String),
        (group_type = "portal" ∨ group_type = "quota") →
        (∀ p ∈ df, p.2.netid ≠ netid) →
        update_dataframe df netid (u0 :: us) (GroupVal.str "root") group_type
            = Except.ok (loc_set df df.length ⟨netid, u0, GroupVal.str "root"⟩)
          ∧ (df.length, (⟨netid, u0, GroupVal.str "root"⟩ : Row))
              ∈ loc_set df df.length ⟨netid, u0, GroupVal.str "root"⟩) := by
  constructor
  · intro df netid uaid group_type hv hex
    have hne : ¬ (loc0_labels df netid).length = 0 := by
      intro h0
      rcases hex with ⟨p, hp, hpn⟩
      have hfilter : df.filter (fun p => p.2.netid == netid) = [] := by
        apply List.length_eq_zero.mp
        unfold loc0_labels at h0
        rwa [List.length_map] at h0
      have := List.filter_eq_nil_iff.mp hfilter p hp
      simp [hpn] at this
    refine ⟨?_, ?_⟩
    · unfold update_dataframe
      rw [if_neg (not_not_intro hv), if_neg hne,
        if_neg (by simp : ¬ (GroupVal.str "root" ≠ GroupVal.str "root"))]
    · intro p hp hpn
      have hmem := List.mem_filter.mp hp
      have hnotin : p.1 ∉ loc0_labels df netid := by
        simpa [List.contains] using hmem.2
      apply hnotin
      unfold loc0_labels
      exact List.mem_map.mpr ⟨p, List.mem_filter.mpr ⟨hmem.1, by simp [hpn]⟩, rfl⟩
  · intro df netid u0 us group_type hv hno
    have h0 : (loc0_labels df netid).length = 0 := by
      unfold loc0_labels
      rw [List.length_map, List.length_eq_zero]
      apply List.filter_eq_nil_iff.mpr
      intro p hp
      simpa using hno p hp
    constructor
    · unfold update_dataframe
      rw [if_neg (not_not_intro hv), if_pos h0]
    · exact mem_loc_set_self df df.length ⟨netid, u0, GroupVal.str "root"⟩

/-- Witness for C3: with the one-row table `[(0, (u1, U1, g))]`, a root
upsert for `u1` deletes the row; with the empty table, a root upsert for
`u1` creates a root row at label 0. -/
theorem C3_witness :
    update_dataframe [(0, (⟨"u1", "U1", GroupVal.str "g"⟩ : Row))] "u1" ["U1"]
        (GroupVal.str "root") "portal" = Except.ok []
      ∧ update_dataframe [] "u1" ["U1b"] (GroupVal.str "root") "portal"
        = Except.ok [(0, (⟨"u1", "U1b", GroupVal.str "root"⟩ : Row))] := by
  constructor
  · exact (C3_theorem.1 [(0, ⟨"u1", "U1", GroupVal.str "g"⟩)] "u1" ["U1"] "portal"
      (Or.inl rfl) (by decide)).1
  · exact (C3_theorem.2 [] "u1" "U1b" [] "portal" (Or.inl rfl) (by decide)).1

/-- C5: one-record-per-netid invariant.  Starting from a table whose
pandas labels are pairwise distinct — as in every frame this program
loads, since `read_csv` assigns labels `0..n-1` — and in which no two
records share a `netid`, any finite sequence of `update_dataframe` calls
that completes without an exception yields a table in which no two
records share a `netid` (label overwrites replace a row, they never
duplicate a netid). -/
theorem C5_theorem (calls : List UpsertCall) (df df' : List (Nat × Row))
    (hl : (labels df).Nodup) (hn : (netids df).Nodup)
    (h : apply_upserts df calls = Except.ok df') :
    (netids df').Nodup := by
  induction calls generalizing df with
  | nil =>
      unfold apply_upserts at h
      cases h
      exact hn
  | cons c cs ih =>
      unfold apply_upserts at h
      cases hstep : update_dataframe df c.netid c.uaid c.group c.group_type with
      | error e =>
          rw [hstep] at h
          exact absurd h (by simp)
      | ok df1 =>
          rw [hstep] at h
          rcases update_dataframe_nodup df c.netid c.uaid c.group c.group_type df1
            hl hn hstep with ⟨hl1, hn1⟩
          exact ih df1 hl1 hn1 h

/-- Witness for C5: the add, add, root-delete, re-add sequence from the
empty table.  The re-add writes through label `len(df) = 1`, which the
surviving `(u2, U2, g2)` row still carries after the delete, so that row
is overwritten and the final table is the single `(u1, U1b, g3)` record —
with pairwise distinct netids. -/
theorem C5_witness :
    apply_upserts []
        [⟨"u1", ["U1"], GroupVal.str "g1", "portal"⟩,
         ⟨"u2", ["U2"], GroupVal.str "g2", "portal"⟩,
         ⟨"u1", ["U1"], GroupVal.str "root", "portal"⟩,
         ⟨"u1", ["U1b"], GroupVal.str "g3", "portal"⟩]
        = Except.ok [(1, (⟨"u1", "U1b", GroupVal.str "g3"⟩ : Row))]
      ∧ (netids [(1, (⟨"u1", "U1b", GroupVal.str "g3"⟩ : Row))]).Nodup := by
  refine ⟨rfl, ?_⟩
  exact C5_theorem
    [⟨"u1", ["U1"], GroupVal.str "g1", "portal"⟩,
     ⟨"u2", ["U2"], GroupVal.str "g2", "portal"⟩,
     ⟨"u1", ["U1"], GroupVal.str "root", "portal"⟩,
     ⟨"u1", ["U1b"], GroupVal.str "g3", "portal"⟩]
    [] [(1, ⟨"u1", "U1b", GroupVal.str "g3"⟩)]
    (by simp [labels]) (by simp [netids]) rfl

/-- Python's substring test `sub in s` on the character list of `s`: `sub`
is a prefix of some suffix. -/
def containsSub (sub : List Char) : List Char → Bool
  | [] => sub.isPrefixOf []
  | c :: rest => sub.isPrefixOf (c :: rest) || containsSub sub rest

/-- Python's `sub in s`. -/
def py_in (sub s : String) : Bool :=
  containsSub sub.data s.data

/-- Python's `str.replace`: replace the non-overlapping occurrences of
`pat`, scanning left to right.  The fuel argument, called with the length
of the scanned list, only makes the recursion structural; it never runs
out because each step consumes at least one character.  (Python treats an
empty `pat` specially; the source only ever replaces `stem + ":"`, which
is nonempty, and an empty `pat` here replaces nothing.) -/
def replaceAllFuel (pat rep : List Char) : Nat → List Char → List Char
  | _, [] => []
  | 0, l => l
  | fuel + 1, c :: rest =>
      if pat ≠ [] ∧ pat.isPrefixOf (c :: rest) then
        rep ++ replaceAllFuel pat rep fuel (List.drop (pat.length - 1) rest)
      else
        c :: replaceAllFuel pat rep fuel rest

/-- Python's `s.replace(pat, rep)`. -/
def py_replace (s pat rep : String) : String :=
  String.mk (replaceAllFuel pat.data rep.data s.data.length s.data)

/-- Output of `get_current_groups`: the `figshare_dict` with keys `portal`
and `quota`. -/
structure FigshareDict where
  portal : String
  quota : String
deriving DecidableEq, Repr

/-- The list comprehension of manual_override.py lines 241 and 255: the
membership values that contain the stem and do not contain the
administrative marker `"grouper"`. -/
def stem_matches (stem : String) (membership : List String) : List String :=
  membership.filter (fun s => py_in stem s && !(py_in "grouper" s))

/-- One stem block of `get_current_groups` (manual_override.py lines
239-251 for `portal`, 253-265 for `quota`; the source repeats the block
verbatim for each stem).  Zero matching values give the empty string,
more than one raises `ValueError`, and exactly one gives the matched
value with every occurrence of `stem + ":"` removed. -/
def extract_stem_field (stem : String) (membership : List String) :
    Except String String :=
  let found := stem_matches stem membership
  if found.length = 0 then
    Except.ok ""
  else if found.length ≠ 1 then
    Except.error "ValueError"
  else
    Except.ok (py_replace (found.headD "") (stem ++ ":") "")

/-- Embedding of `get_current_groups` (manual_override.py lines 210-267).
The LDAP query is an external collaborator: its result, the multi-valued
`ismemberof` attribute, is the `membership` argument (`none` when the
attribute is absent, in which case both fields are empty).  The two stems
are produced by `figshare_stem` of `requiam/commons.py`, a file not under
`src/`; they enter as parameters.  The portal block runs before the quota
block, so a portal `ValueError` is raised first. -/
def get_current_groups (portal_stem quota_stem : String) :
    Option (List String) → Except String FigshareDict
  | none => Except.ok ⟨"", ""⟩
  | some m =>
      match extract_stem_field portal_stem m with
      | Except.error e => Except.error e
      | Except.ok pfield =>
          match extract_stem_field quota_stem m with
          | Except.error e => Except.error e
          | Except.ok qfield => Except.ok ⟨pfield, qfield⟩

theorem extract_stem_field_zero (stem : String) (m : List String)
    (h : (stem_matches stem m).length = 0) :
    extract_stem_field stem m = Except.ok "" := by
  unfold extract_stem_field
  simp [h]

theorem extract_stem_field_many (stem : String) (m : List String)
    (h : 1 < (stem_matches stem m).length) :
    extract_stem_field stem m = Except.error "ValueError" := by
  unfold extract_stem_field
  have h0 : ¬ (stem_matches stem m).length = 0 := by omega
  have h1 : (stem_matches stem m).length ≠ 1 := by omega
  simp [h0, h1]

theorem extract_stem_field_single (stem : String) (m : List String) (s : String)
    (h : stem_matches stem m = [s]) :
    extract_stem_field stem m = Except.ok (py_replace s (stem ++ ":") "") := by
  unfold extract_stem_field
  simp [h]

/-!
File-level model for `csv_commented_header`, `read_manual_file` and the
persistence step of `update_dataframe`.  A file is a `List (List Char)`
of its lines (newlines elided: `readlines` keeps and `writelines`
restores them unchanged), present as `some lines` and absent as `none`.
-/

/-- Splitting a CSV line at commas (the field splitting done by
`pd.read_csv`); always returns at least one field. -/
def splitFields : List Char → List (List Char)
  | [] => [[]]
  | c :: rest =>
      if c = ',' then [] :: splitFields rest
      else
        match splitFields rest with
        | [] => [[c]]
        | f :: fs => (c :: f) :: fs

/-- Joining fields with commas (the rendering done by `to_csv`). -/
def joinFields : List (List Char) → List Char
  | [] => []
  | [f] => f
  | f :: g :: fs => f ++ ',' :: joinFields (g :: fs)

/-- Python's `line.startswith('#')` for the comment marker. -/
def startsWithHash (l : List Char) : Bool :=
  match l with
  | [] => false
  | c :: _ => c == '#'

/-- Embedding of `csv_commented_header` (manual_override.py lines
127-142): the lines of the file that start with `'#'`, in order. -/
def csv_commented_header (file : List (List Char)) : List (List Char) :=
  file.filter startsWithHash

/-- The `comment='#'` handling of `pd.read_csv`: the rest of a line from
the first `'#'` on is ignored. -/
def truncateComment (l : List Char) : List Char :=
  l.takeWhile (fun c => c != '#')

/-- One typed data row of a loaded override CSV. -/
structure CsvRow where
  netid : List Char
  uaid : List Char
  group : GroupVal
deriving DecidableEq, Repr

/-- A loaded override CSV: the column names from the first non-comment
line, and the typed data rows. -/
structure CsvTable where
  cols : List (List Char)
  rows : List CsvRow
deriving DecidableEq, Repr

/-- The dtype applied by `read_manual_file`: the group column is a string
for the portal table and an integer for the quota table; a quota value
that is not an integer literal raises `ValueError`. -/
def parseGroupVal (group_type : String) (field : List Char) : Except String GroupVal :=
  if group_type = "quota" then
    match (String.mk field).toInt? with
    | some n => Except.ok (GroupVal.int n)
    | none => Except.error "ValueError: invalid literal for int"
  else
    Except.ok (GroupVal.str (String.mk field))

/-- Parsing one data line into a typed row: fields are the comma-separated
pieces, columns `netid`, `uaid` and the group column in that order. -/
def parseRow (group_type : String) (line : List Char) : Except String CsvRow :=
  match parseGroupVal group_type ((splitFields line).getD 2 []) with
  | Except.error e => Except.error e
  | Except.ok g =>
      Except.ok ⟨(splitFields line).getD 0 [], (splitFields line).getD 1 [], g⟩

/-- Parse a list of lines in order, aborting at the first raised error. -/
def mapExcept (f : α → Except String β) : List α → Except String (List β)
  | [] => Except.ok []
  | a :: as =>
      match f a with
      | Except.error e => Except.error e
      | Except.ok b =>
          match mapExcept f as with
          | Except.error e => Except.error e
          | Except.ok bs => Except.ok (b :: bs)

/-- The `pd.read_csv(input_file, comment='#', dtype=dtype_dict)` call of
`read_manual_file`: raises `FileNotFoundError` when the file is absent;
otherwise drops everything from `'#'` on in each line, skips the lines
left empty, reads the first remaining line as the column names and parses
the rest as typed rows (raising `EmptyDataError` when nothing is left). -/
def pd_read_csv : Option (List (List Char)) → String → Except String CsvTable
  | none, _ => Except.error "FileNotFoundError"
  | some lines, group_type =>
      match (lines.map truncateComment).filter (fun l => !l.isEmpty) with
      | [] => Except.error "EmptyDataError: No columns to parse from file"
      | colsLine :: dataLines =>
          match mapExcept (parseRow group_type) dataLines with
          | Except.error e => Except.error e
          | Except.ok rows => Except.ok ⟨splitFields colsLine, rows⟩

/-- Embedding of `read_manual_file` (manual_override.py lines 145-171).
Validates `group_type`, then reads the CSV; `FileNotFoundError` is caught
(the source logs it and implicitly returns `None`), every other exception
propagates. -/
def read_manual_file (file : Option (List (List Char))) (group_type : String) :
    Except String (Option CsvTable) :=
  if ¬ (group_type = "portal" ∨ group_type = "quota") then
    Except.error "ValueError: Incorrect [group_type] input"
  else
    match pd_read_csv file group_type with
    | Except.ok df => Except.ok (some df)
    | Except.error e =>
        if e = "FileNotFoundError" then Except.ok none
        else Except.error e

/-- Rendering a group value back to text, as `to_csv` prints the column. -/
def renderGroupVal : GroupVal → List Char
  | GroupVal.str s => s.data
  | GroupVal.int n => (toString n).data

/-- Rendering one typed row as a CSV line. -/
def renderRow (r : CsvRow) : List Char :=
  joinFields [r.netid, r.uaid, renderGroupVal r.group]

/-- The `df.to_csv(f, index=False)` output as lines: the column names,
then the data rows, comma-joined. -/
def df_to_csv (t : CsvTable) : List (List Char) :=
  joinFields t.cols :: t.rows.map renderRow

/-- The persistence step of `ManualOverride.update_dataframe`
(manual_override.py lines 109-124): `f.writelines(header)` followed by
`df.to_csv(f, index=False)` — the header lines verbatim, then the typed
rows. -/
def save_lines (header : List (List Char)) (t : CsvTable) : List (List Char) :=
  header ++ df_to_csv t

theorem splitFields_ne_nil (l : List Char) : splitFields l ≠ [] := by
  cases l with
  | nil => simp [splitFields]
  | cons c rest =>
      unfold splitFields
      by_cases hc : c = ','
      · simp [hc]
      · cases h : splitFields rest <;> simp [hc, h]

theorem mem_splitFields_mem (l : List Char) :
    ∀ f ∈ splitFields l, ∀ c ∈ f, c ∈ l := by
  induction l with
  | nil =>
      intro f hf c hc
      simp [splitFields] at hf
      subst hf
      exact absurd hc (by simp)
  | cons c0 rest ih =>
      intro f hf c hc
      unfold splitFields at hf
      by_cases hc0 : c0 = ','
      · rw [if_pos hc0] at hf
        rcases List.mem_cons.mp hf with hf | hf
        · subst hf
          exact absurd hc (by simp)
        · exact List.mem_cons_of_mem c0 (ih f hf c hc)
      · rw [if_neg hc0] at hf
        cases h : splitFields rest with
        | nil => exact absurd h (splitFields_ne_nil rest)
        | cons f0 fs =>
            rw [h] at hf
            rcases List.mem_cons.mp hf with hf | hf
            · subst hf
              rcases List.mem_cons.mp hc with hc | hc
              · exact hc ▸ List.mem_cons_self c0 rest
              · exact List.mem_cons_of_mem c0
                  (ih f0 (h ▸ List.mem_cons_self f0 fs) c hc)
            · exact List.mem_cons_of_mem c0
                (ih f (h ▸ List.mem_cons_of_mem f0 hf) c hc)

theorem joinFields_splitFields (l : List Char) :
    joinFields (splitFields l) = l := by
  induction l with
  | nil => rfl
  | cons c rest ih =>
      unfold splitFields
      by_cases hc : c = ','
      · rw [if_pos hc]
        cases h : splitFields rest with
        | nil => exact absurd h (splitFields_ne_nil rest)
        | cons f fs =>
            unfold joinFields
            rw [← h, ih, hc]
            simp
      · rw [if_neg hc]
        cases h : splitFields rest with
        | nil => exact absurd h (splitFields_ne_nil rest)
        | cons f fs =>
            cases fs with
            | nil =>
                unfold joinFields
                have : joinFields (splitFields rest) = rest := ih
                rw [h] at this
                unfold joinFields at this
                simp [this]
            | cons g gs =>
                have h2 : joinFields (splitFields rest) = rest := ih
                rw [h] at h2
                unfold joinFields
                unfold joinFields at h2
                simp [h2]

theorem mapExcept_ok_mem (f : α → Except String β) (as : List α)
    (bs : List β) (h : mapExcept f as = Except.ok bs) :
    ∀ b ∈ bs, ∃ a ∈ as, f a = Except.ok b := by
  induction as generalizing bs with
  | nil =>
      unfold mapExcept at h
      cases h
      intro b hb
      exact absurd hb (by simp)
  | cons a as ih =>
      unfold mapExcept at h
      cases hfa : f a with
      | error e => rw [hfa] at h; exact absurd h (by simp)
      | ok b0 =>
          rw [hfa] at h
          cases hrest : mapExcept f as with
          | error e => rw [hrest] at h; exact absurd h (by simp)
          | ok bs0 =>
              rw [hrest] at h
              cases h
              intro b hb
              rcases List.mem_cons.mp hb with hb | hb
              · exact ⟨a, List.mem_cons_self a as, hb ▸ hfa⟩
              · rcases ih bs0 hrest b hb with ⟨a', ha', hfa'⟩
                exact ⟨a', List.mem_cons_of_mem a ha', hfa'⟩

theorem parseRow_ok_netid (group_type : String) (line : List Char)
    (r : CsvRow) (h : parseRow group_type line = Except.ok r) :
    r.netid = (splitFields line).getD 0 [] := by
  unfold parseRow at h
  cases hg : parseGroupVal group_type ((splitFields line).getD 2 []) with
  | error e => rw [hg] at h; exact absurd h (by simp)
  | ok g =>
      rw [hg] at h
      cases h
      rfl

theorem body_no_hash (lines : List (List Char)) (l : List Char)
    (h : l ∈ (lines.map truncateComment).filter (fun x => !x.isEmpty)) :
    ∀ c ∈ l, c ≠ '#' := by
  intro c hc
  have hmem := (List.mem_filter.mp h).1
  rcases List.mem_map.mp hmem with ⟨orig, -, horig⟩
  have := List.mem_takeWhile_imp (horig ▸ hc : c ∈ truncateComment orig)
  simpa using this

theorem startsWithHash_false (l : List Char) (h : ∀ c ∈ l, c ≠ '#') :
    startsWithHash l = false := by
  cases l with
  | nil => rfl
  | cons c rest =>
      unfold startsWithHash
      simpa using h c (List.mem_cons_self c rest)

theorem startsWithHash_comma (l : List Char) :
    startsWithHash (',' :: l) = false := by
  rfl

theorem renderRow_no_hash (group_type : String) (line : List Char) (r : CsvRow)
    (hline : ∀ c ∈ line, c ≠ '#')
    (hr : parseRow group_type line = Except.ok r) :
    startsWithHash (renderRow r) = false := by
  have hnet := parseRow_ok_netid group_type line r hr
  unfold renderRow joinFields
  cases hn : r.netid with
  | nil => simp [startsWithHash]
  | cons c cs =>
      have hc : c ∈ line := by
        cases hf : splitFields line with
        | nil => exact absurd hf (splitFields_ne_nil line)
        | cons f0 fs =>
            have hf0 : r.netid = f0 := by rw [hnet, hf]; rfl
            apply mem_splitFields_mem line f0 (hf ▸ List.mem_cons_self f0 fs) c
            rw [← hf0, hn]
            exact List.mem_cons_self c cs
      have hch : c ≠ '#' := hline c hc
      simp [startsWithHash, hch]

/-- C4: when the underlying file does not exist, the `pd.read_csv` call
inside `read_manual_file` fails with `FileNotFoundError`; the function
catches exactly that exception, logs, and returns no table (Python's
implicit `None`), leaving the condition recoverable for the caller. -/
theorem C4_theorem (group_type : String)
    (hv : group_type = "portal" ∨ group_type = "quota") :
    pd_read_csv none group_type = Except.error "FileNotFoundError"
      ∧ read_manual_file none group_type = Except.ok none := by
  refine ⟨rfl, ?_⟩
  unfold read_manual_file
  rw [if_neg (not_not_intro hv)]
  rfl

/-- Witness for C4: the portal table with a missing file. -/
theorem C4_witness :
    pd_read_csv none "portal" = Except.error "FileNotFoundError"
      ∧ read_manual_file none "portal" = Except.ok none := by
  exact C4_theorem "portal" (Or.inl rfl)

/-- C9: header round-trip.  Loading an override file and persisting the
loaded table with its comment header writes the original comment-header
lines verbatim, before the typed rows; in particular the saved file's
comment header equals the original file's comment header. -/
theorem C9_theorem (lines : List (List Char)) (group_type : String) (t : CsvTable)
    (h : read_manual_file (some lines) group_type = Except.ok (some t)) :
    save_lines (csv_commented_header lines) t
        = csv_commented_header lines ++ df_to_csv t
      ∧ (save_lines (csv_commented_header lines) t).take
          (csv_commented_header lines).length = csv_commented_header lines
      ∧ csv_commented_header (save_lines (csv_commented_header lines) t)
        = csv_commented_header lines := by
  have hpd : pd_read_csv (some lines) group_type = Except.ok t := by
    unfold read_manual_file at h
    split at h
    · exact absurd h (by simp)
    · split at h
      · simp_all
      · split at h <;> simp_all
  refine ⟨rfl, by simp [save_lines, List.take_left], ?_⟩
  simp only [pd_read_csv] at hpd
  split at hpd
  · exact absurd hpd (by simp)
  · rename_i colsLine dataLines hbody
    split at hpd
    · exact absurd hpd (by simp)
    · rename_i rows hrows
      have ht : t = ⟨splitFields colsLine, rows⟩ := by
        cases hpd
        rfl
      subst ht
      unfold save_lines csv_commented_header
      rw [List.filter_append]
      have hhdr : (lines.filter startsWithHash).filter startsWithHash
          = lines.filter startsWithHash := by
        apply List.filter_eq_self.mpr
        intro l hl
        exact (List.mem_filter.mp hl).2
      have hrender : (df_to_csv ⟨splitFields colsLine, rows⟩).filter startsWithHash
          = [] := by
        apply List.filter_eq_nil_iff.mpr
        intro l hl
        unfold df_to_csv at hl
        rcases List.mem_cons.mp hl with hl | hl
        · subst hl
          rw [joinFields_splitFields]
          have hno := body_no_hash lines colsLine
            (hbody ▸ List.mem_cons_self colsLine dataLines)
          simp [startsWithHash_false colsLine hno]
        · rcases List.mem_map.mp hl with ⟨r, hr, hrl⟩
          rcases mapExcept_ok_mem (parseRow group_type) dataLines rows hrows r hr
            with ⟨line, hlm, hpr⟩
          have hno := body_no_hash lines line
            (hbody ▸ List.mem_cons_of_mem colsLine hlm)
          rw [← hrl]
          simp [renderRow_no_hash group_type line r hno hpr]
      rw [hhdr, hrender, List.append_nil]

/-- Witness for C9: a three-line file with one comment line; the saved
output's comment header is exactly the original one. -/
theorem C9_witness :
    read_manual_file (some [("# header").data, ("netid,uaid,portal").data,
        ("u1,U1,g").data]) "portal"
      = Except.ok (some ⟨[("netid").data, ("uaid").data, ("portal").data],
          [⟨("u1").data, ("U1").data, GroupVal.str "g"⟩]⟩)
    ∧ csv_commented_header (save_lines
        (csv_commented_header [("# header").data, ("netid,uaid,portal").data,
          ("u1,U1,g").data])
        ⟨[("netid").data, ("uaid").data, ("portal").data],
          [⟨("u1").data, ("U1").data, GroupVal.str "g"⟩]⟩)
      = csv_commented_header [("# header").data, ("netid,uaid,portal").data,
          ("u1,U1,g").data] := by
  refine ⟨rfl, ?_⟩
  exact (C9_theorem [("# header").data, ("netid,uaid,portal").data, ("u1,U1,g").data]
    "portal"
    ⟨[("netid").data, ("uaid").data, ("portal").data],
      [⟨("u1").data, ("U1").data, GroupVal.str "g"⟩]⟩ rfl).2.2

/-- C7 (counterexample): on the claim's own inputs — membership values
`["cn=grouper-portal-internal", "cn=stem:portal:acme"]`, portal stem
`"stem:portal"` and admin marker `"grouper"` — the single match is
`"cn=stem:portal:acme"` and `replace(stem + ":", "")` removes only the
occurrence of `"stem:portal:"`, leaving `"cn=acme"`, not the bare group
name `"acme"` the claim states. -/
theorem C7_counterexample :
    get_current_groups "stem:portal" "stem:quota"
        (some ["cn=grouper-portal-internal", "cn=stem:portal:acme"])
      = Except.ok ⟨"cn=acme", ""⟩
    ∧ ("cn=acme" : String) ≠ "acme" := by
  exact ⟨rfl, by decide⟩

/-- C7 (amended): when exactly one non-admin-marked membership value
matches a stem (and at most one matches the other stem, so the call
succeeds), `get_current_groups` returns, for that field, the matched
string with every occurrence of the stem followed by the separator `":"`
removed; on the claim's example inputs the portal field is therefore
`"cn=acme"`. -/
theorem C7_theorem (portal_stem quota_stem : String) (m : List String) (s : String)
    (hp : stem_matches portal_stem m = [s])
    (hq : (stem_matches quota_stem m).length ≤ 1) :
    (get_current_groups portal_stem quota_stem (some m)).map FigshareDict.portal
      = Except.ok (py_replace s (portal_stem ++ ":") "") := by
  simp only [get_current_groups]
  rw [extract_stem_field_single portal_stem m s hp]
  by_cases hq0 : (stem_matches quota_stem m).length = 0
  · rw [extract_stem_field_zero quota_stem m hq0]
    rfl
  · have hq1 : (stem_matches quota_stem m).length = 1 := by omega
    rcases List.length_eq_one.mp hq1 with ⟨t, ht⟩
    rw [extract_stem_field_single quota_stem m t ht]
    rfl

/-- Witness for C7: the claim's example inputs; the portal field is the
matched value with `"stem:portal:"` removed, i.e. `"cn=acme"`. -/
theorem C7_witness :
    (get_current_groups "stem:portal" "stem:quota"
        (some ["cn=grouper-portal-internal", "cn=stem:portal:acme"])).map FigshareDict.portal
      = Except.ok "cn=acme" := by
  exact C7_theorem "stem:portal" "stem:quota"
    ["cn=grouper-portal-internal", "cn=stem:portal:acme"] "cn=stem:portal:acme"
    rfl (by decide)

/-- C8: `get_current_groups` raises `ValueError` whenever more than one
membership value matches a stem after values containing the
administrative marker are filtered out (for either stem); with zero
matches for a stem (and at most one for the other, so the call succeeds)
the corresponding field is the empty string instead. -/
theorem C8_theorem :
    (∀ (portal_stem quota_stem : String) (m : List String),
      1 < (stem_matches portal_stem m).length →
      get_current_groups portal_stem quota_stem (some m) = Except.error "ValueError")
    ∧ (∀ (portal_stem quota_stem : String) (m : List String),
        1 < (stem_matches quota_stem m).length →
        get_current_groups portal_stem quota_stem (some m) = Except.error "ValueError")
    ∧ (∀ (portal_stem quota_stem : String) (m : List String),
        (stem_matches portal_stem m).length = 0 →
        (stem_matches quota_stem m).length ≤ 1 →
        (get_current_groups portal_stem quota_stem (some m)).map FigshareDict.portal
          = Except.ok "")
    ∧ (∀ (portal_stem quota_stem : String) (m : List String),
        (stem_matches quota_stem m).length = 0 →
        (stem_matches portal_stem m).length ≤ 1 →
        (get_current_groups portal_stem quota_stem (some m)).map FigshareDict.quota
          = Except.ok "") := by
  have hquota : ∀ (portal_stem quota_stem : String) (m : List String),
      1 < (stem_matches quota_stem m).length →
      get_current_groups portal_stem quota_stem (some m) = Except.error "ValueError" := by
    intro portal_stem quota_stem m hq
    simp only [get_current_groups]
    cases hp : extract_stem_field portal_stem m with
    | error e =>
        unfold extract_stem_field at hp
        by_cases h0 : (stem_matches portal_stem m).length = 0
        · simp [h0] at hp
        · by_cases h1 : (stem_matches portal_stem m).length = 1
          · simp [h0, h1] at hp
          · simp [h0, h1] at hp
            rw [← hp]
    | ok pfield =>
        rw [extract_stem_field_many quota_stem m hq]
  refine ⟨?_, hquota, ?_, ?_⟩
  · intro portal_stem quota_stem m hp
    simp only [get_current_groups]
    rw [extract_stem_field_many portal_stem m hp]
  · intro portal_stem quota_stem m hp0 hq
    simp only [get_current_groups]
    rw [extract_stem_field_zero portal_stem m hp0]
    by_cases hq0 : (stem_matches quota_stem m).length = 0
    · rw [extract_stem_field_zero quota_stem m hq0]
      rfl
    · have hq1 : (stem_matches quota_stem m).length = 1 := by omega
      rcases List.length_eq_one.mp hq1 with ⟨t, ht⟩
      rw [extract_stem_field_single quota_stem m t ht]
      rfl
  · intro portal_stem quota_stem m hq0 hp
    simp only [get_current_groups]
    rw [extract_stem_field_zero quota_stem m hq0]
    by_cases hp0 : (stem_matches portal_stem m).length = 0
    · rw [extract_stem_field_zero portal_stem m hp0]
      rfl
    · have hp1 : (stem_matches portal_stem m).length = 1 := by omega
      rcases List.length_eq_one.mp hp1 with ⟨t, ht⟩
      rw [extract_stem_field_single portal_stem m t ht]
      rfl

/-- Witness for C8: two non-admin values matching the portal stem raise
`ValueError`; with no match at all, both fields come back empty. -/
theorem C8_witness :
    get_current_groups "p" "q" (some ["p:a", "p:b"]) = Except.error "ValueError"
      ∧ (get_current_groups "p" "q" (some [])).map FigshareDict.portal = Except.ok "" := by
  constructor
  · exact C8_theorem.1 "p" "q" ["p:a", "p:b"] (by decide)
  · exact C8_theorem.2.2.1 "p" "q" [] (by decide) (by decide)
